import Mathlib

/-!
Shallow embedding of the generated Thrift envelope codec for the
WorkflowService.ListClosedWorkflowExecutions method, translated from
.gen/go/cadence/workflowservice_listclosedworkflowexecutions.go.

Go pointers become Option, the Go error interface becomes an explicit
inductive GoError, and fallible Go functions return Except.  The nested
payload structs of the shared package are outside the visible source, so
the development is parametric in their types and codecs: a Codec bundles
the ToWire, FromWire and Equals operations a nested struct exposes, and
theorems that need them assume the codec round trip contract the spec
states for the generic struct codec.
-/

namespace Cadence

/-- Wire type tags of the thriftrw wire package, restricted to the
variants this development exercises. -/
inductive WType where
  | TBool
  | TI64
  | TBinary
  | TStruct
  deriving DecidableEq

/-- Wire value model of the thriftrw wire package: a protocol neutral
tree.  A struct is an ordered list of pairs of a field id and a value. -/
inductive WireValue where
  | vbool : Bool → WireValue
  | vi64 : Int → WireValue
  | vbinary : String → WireValue
  | vstruct : List (Nat × WireValue) → WireValue

/-- Models wire.Value.Type. -/
def WireValue.wtype : WireValue → WType
  | .vbool _ => .TBool
  | .vi64 _ => .TI64
  | .vbinary _ => .TBinary
  | .vstruct _ => .TStruct

/-- Models wire.Value.GetStruct: the field list of a struct value; for any
other variant the Go accessor yields the zero value, an empty field
list. -/
def WireValue.getStruct : WireValue → List (Nat × WireValue)
  | .vstruct fs => fs
  | _ => []

/-- Bundles the payload types of the method: the request type carried by
the Args struct, the response type of the Success slot, and the five
declared exception types of the shared package, all of which live outside
the visible source. -/
structure MethodTypes : Type 1 where
  ListClosedWorkflowExecutionsRequest : Type
  ListClosedWorkflowExecutionsResponse : Type
  BadRequestError : Type
  InternalServiceError : Type
  EntityNotExistsError : Type
  ServiceBusyError : Type
  ClientVersionNotSupportedError : Type

/-- Models a Go error interface value as classified by the type switches
of the generated helper: one constructor per declared exception pointer
type (the Option payload models pointer nilness, none being a typed nil
pointer) and one constructor for every other error, identified by its
message text. -/
inductive GoError (T : MethodTypes) where
  | badRequestError : Option T.BadRequestError → GoError T
  | internalServiceError : Option T.InternalServiceError → GoError T
  | entityNotExistsError : Option T.EntityNotExistsError → GoError T
  | serviceBusyError : Option T.ServiceBusyError → GoError T
  | clientVersionNotSupportedError : Option T.ClientVersionNotSupportedError → GoError T
  | other : String → GoError T

/-- Interface of a nested payload struct codec: its ToWire, its FromWire
and its generated deep comparison Equals. -/
structure Codec (T : MethodTypes) (α : Type) where
  toWire : α → Except (GoError T) WireValue
  fromWire : WireValue → Except (GoError T) α
  equals : α → α → Bool

/-- The codecs of the seven nested payload structs the method refers
to. -/
structure Codecs (T : MethodTypes) where
  listRequest : Codec T T.ListClosedWorkflowExecutionsRequest
  success : Codec T T.ListClosedWorkflowExecutionsResponse
  badRequestError : Codec T T.BadRequestError
  internalServiceError : Codec T T.InternalServiceError
  entityNotExistsError : Codec T T.EntityNotExistsError
  serviceBusyError : Codec T T.ServiceBusyError
  clientVersionNotSupportedError : Codec T T.ClientVersionNotSupportedError

variable {T : MethodTypes}

/-- Message of the arity error of the generated Result ToWire and
FromWire, produced by fmt.Errorf with the observed field count. -/
def resultArityMsg (count : Nat) : String :=
  "WorkflowService_ListClosedWorkflowExecutions_Result should have exactly one field: got "
    ++ toString count ++ " fields"

/-- Message of the defensive error of WrapResponse for a typed nil
exception value, naming the affected result slot. -/
def wrapNilMsg (slot : String) : String :=
  "WrapResponse received non-nil error type with nil value for WorkflowService_ListClosedWorkflowExecutions_Result."
    ++ slot

/-- Generated deep comparison of two optional slots: both absent, or both
present and equal under the payload comparison. -/
def optEquals (eq : α → α → Bool) : Option α → Option α → Bool
  | none, none => true
  | some a, some b => eq a b
  | _, _ => false

/-- Models the generated Args struct of the method: one optional request
parameter mapped to field id 1. -/
structure WorkflowService_ListClosedWorkflowExecutions_Args (T : MethodTypes) where
  listRequest : Option T.ListClosedWorkflowExecutionsRequest

/-- Models Args.ToWire: encode the request when present under field id 1,
propagating a nested encode error; an absent field is omitted. -/
def WorkflowService_ListClosedWorkflowExecutions_Args.toWire (cs : Codecs T)
    (v : WorkflowService_ListClosedWorkflowExecutions_Args T) :
    Except (GoError T) WireValue :=
  match v.listRequest with
  | none => .ok (.vstruct [])
  | some r =>
    match cs.listRequest.toWire r with
    | .error e => .error e
    | .ok w => .ok (.vstruct [(1, w)])

/-- Models the field loop of Args.FromWire: a field with id 1 of struct
wire type is decoded into the slot; any other field is skipped. -/
def argsReadFields (cs : Codecs T) :
    List (Nat × WireValue) → WorkflowService_ListClosedWorkflowExecutions_Args T →
      Except (GoError T) (WorkflowService_ListClosedWorkflowExecutions_Args T)
  | [], v => .ok v
  | (fid, fw) :: rest, v =>
    if fid = 1 then
      if fw.wtype = WType.TStruct then
        match cs.listRequest.fromWire fw with
        | .error e => .error e
        | .ok r => argsReadFields cs rest ⟨some r⟩
      else argsReadFields cs rest v
    else argsReadFields cs rest v

/-- Models Args.FromWire, decoding into a zero valued Args struct. -/
def WorkflowService_ListClosedWorkflowExecutions_Args.fromWire (cs : Codecs T)
    (w : WireValue) :
    Except (GoError T) (WorkflowService_ListClosedWorkflowExecutions_Args T) :=
  argsReadFields cs w.getStruct ⟨none⟩

/-- Models the generated Args.Equals deep comparison. -/
def WorkflowService_ListClosedWorkflowExecutions_Args.equals (cs : Codecs T)
    (v rhs : WorkflowService_ListClosedWorkflowExecutions_Args T) : Bool :=
  optEquals cs.listRequest.equals v.listRequest rhs.listRequest

/-- Models the generated Result struct of the method: one Success slot and
five exception slots, all optional, mapped to field ids 0 through 5. -/
structure WorkflowService_ListClosedWorkflowExecutions_Result (T : MethodTypes) where
  success : Option T.ListClosedWorkflowExecutionsResponse
  badRequestError : Option T.BadRequestError
  internalServiceError : Option T.InternalServiceError
  entityNotExistError : Option T.EntityNotExistsError
  serviceBusyError : Option T.ServiceBusyError
  clientVersionNotSupportedError : Option T.ClientVersionNotSupportedError

/-- Models one conditional append of the generated Result ToWire: when the
slot is populated, encode it and append the field under the given id,
propagating a nested encode error. -/
def appendField (c : Codec T α) (fid : Nat) (slot : Option α)
    (fields : List (Nat × WireValue)) : Except (GoError T) (List (Nat × WireValue)) :=
  match slot with
  | none => .ok fields
  | some x =>
    match c.toWire x with
    | .error e => .error e
    | .ok w => .ok (fields ++ [(fid, w)])

/-- Models Result.ToWire: append the populated slots in declaration order
under field ids 0 through 5, then fail with the arity message unless
exactly one field was appended. -/
def WorkflowService_ListClosedWorkflowExecutions_Result.toWire (cs : Codecs T)
    (v : WorkflowService_ListClosedWorkflowExecutions_Result T) :
    Except (GoError T) WireValue :=
  match appendField cs.success 0 v.success [] with
  | .error e => .error e
  | .ok f0 =>
    match appendField cs.badRequestError 1 v.badRequestError f0 with
    | .error e => .error e
    | .ok f1 =>
      match appendField cs.internalServiceError 2 v.internalServiceError f1 with
      | .error e => .error e
      | .ok f2 =>
        match appendField cs.entityNotExistsError 3 v.entityNotExistError f2 with
        | .error e => .error e
        | .ok f3 =>
          match appendField cs.serviceBusyError 4 v.serviceBusyError f3 with
          | .error e => .error e
          | .ok f4 =>
            match appendField cs.clientVersionNotSupportedError 5 v.clientVersionNotSupportedError f4 with
            | .error e => .error e
            | .ok f5 =>
              if f5.length ≠ 1 then .error (.other (resultArityMsg f5.length))
              else .ok (.vstruct f5)

/-- Contribution of one optional slot to the populated slot count. -/
def countSome : Option α → Nat
  | none => 0
  | some _ => 1

/-- Models the populated slot count the generated Result FromWire computes
after its field loop, in declaration order. -/
def WorkflowService_ListClosedWorkflowExecutions_Result.populatedCount
    (v : WorkflowService_ListClosedWorkflowExecutions_Result T) : Nat :=
  countSome v.success + countSome v.badRequestError + countSome v.internalServiceError
    + countSome v.entityNotExistError + countSome v.serviceBusyError
    + countSome v.clientVersionNotSupportedError

/-- Models the field loop of Result.FromWire: fields with ids 0 through 5
of struct wire type are decoded into their slots; any other field is
skipped. -/
def resultReadFields (cs : Codecs T) :
    List (Nat × WireValue) → WorkflowService_ListClosedWorkflowExecutions_Result T →
      Except (GoError T) (WorkflowService_ListClosedWorkflowExecutions_Result T)
  | [], v => .ok v
  | (fid, fw) :: rest, v =>
    if fid = 0 then
      if fw.wtype = WType.TStruct then
        match cs.success.fromWire fw with
        | .error e => .error e
        | .ok x => resultReadFields cs rest { v with success := some x }
      else resultReadFields cs rest v
    else if fid = 1 then
      if fw.wtype = WType.TStruct then
        match cs.badRequestError.fromWire fw with
        | .error e => .error e
        | .ok x => resultReadFields cs rest { v with badRequestError := some x }
      else resultReadFields cs rest v
    else if fid = 2 then
      if fw.wtype = WType.TStruct then
        match cs.internalServiceError.fromWire fw with
        | .error e => .error e
        | .ok x => resultReadFields cs rest { v with internalServiceError := some x }
      else resultReadFields cs rest v
    else if fid = 3 then
      if fw.wtype = WType.TStruct then
        match cs.entityNotExistsError.fromWire fw with
        | .error e => .error e
        | .ok x => resultReadFields cs rest { v with entityNotExistError := some x }
      else resultReadFields cs rest v
    else if fid = 4 then
      if fw.wtype = WType.TStruct then
        match cs.serviceBusyError.fromWire fw with
        | .error e => .error e
        | .ok x => resultReadFields cs rest { v with serviceBusyError := some x }
      else resultReadFields cs rest v
    else if fid = 5 then
      if fw.wtype = WType.TStruct then
        match cs.clientVersionNotSupportedError.fromWire fw with
        | .error e => .error e
        | .ok x => resultReadFields cs rest { v with clientVersionNotSupportedError := some x }
      else resultReadFields cs rest v
    else resultReadFields cs rest v

/-- Models Result.FromWire: run the field loop over a zero valued Result,
then fail with the arity message unless exactly one slot is populated. -/
def WorkflowService_ListClosedWorkflowExecutions_Result.fromWire (cs : Codecs T)
    (w : WireValue) :
    Except (GoError T) (WorkflowService_ListClosedWorkflowExecutions_Result T) :=
  match resultReadFields cs w.getStruct ⟨none, none, none, none, none, none⟩ with
  | .error e => .error e
  | .ok v =>
    if v.populatedCount ≠ 1 then .error (.other (resultArityMsg v.populatedCount))
    else .ok v

/-- Models the generated Result.Equals deep comparison, slot by slot in
declaration order. -/
def WorkflowService_ListClosedWorkflowExecutions_Result.equals (cs : Codecs T)
    (v rhs : WorkflowService_ListClosedWorkflowExecutions_Result T) : Bool :=
  optEquals cs.success.equals v.success rhs.success
    && optEquals cs.badRequestError.equals v.badRequestError rhs.badRequestError
    && optEquals cs.internalServiceError.equals v.internalServiceError rhs.internalServiceError
    && optEquals cs.entityNotExistsError.equals v.entityNotExistError rhs.entityNotExistError
    && optEquals cs.serviceBusyError.equals v.serviceBusyError rhs.serviceBusyError
    && optEquals cs.clientVersionNotSupportedError.equals v.clientVersionNotSupportedError
        rhs.clientVersionNotSupportedError

/-- Models Helper.IsException: the type switch recognising the five
declared exception pointer types, regardless of pointer nilness. -/
def WorkflowService_ListClosedWorkflowExecutions_Helper.isException : GoError T → Bool
  | .badRequestError _ => true
  | .internalServiceError _ => true
  | .entityNotExistsError _ => true
  | .serviceBusyError _ => true
  | .clientVersionNotSupportedError _ => true
  | .other _ => false

/-- Models Helper.WrapResponse: with a nil error, build a Result holding
the given success value; otherwise switch on the concrete error type,
rejecting a typed nil with the defensive message, populating the matching
exception slot for a non nil pointer, and passing any unrecognised error
back unchanged with no Result. -/
def WorkflowService_ListClosedWorkflowExecutions_Helper.wrapResponse
    (success : Option T.ListClosedWorkflowExecutionsResponse)
    (err : Option (GoError T)) :
    Option (WorkflowService_ListClosedWorkflowExecutions_Result T) × Option (GoError T) :=
  match err with
  | none => (some ⟨success, none, none, none, none, none⟩, none)
  | some (.badRequestError e) =>
    match e with
    | none => (none, some (.other (wrapNilMsg "BadRequestError")))
    | some x => (some ⟨none, some x, none, none, none, none⟩, none)
  | some (.internalServiceError e) =>
    match e with
    | none => (none, some (.other (wrapNilMsg "InternalServiceError")))
    | some x => (some ⟨none, none, some x, none, none, none⟩, none)
  | some (.entityNotExistsError e) =>
    match e with
    | none => (none, some (.other (wrapNilMsg "EntityNotExistError")))
    | some x => (some ⟨none, none, none, some x, none, none⟩, none)
  | some (.serviceBusyError e) =>
    match e with
    | none => (none, some (.other (wrapNilMsg "ServiceBusyError")))
    | some x => (some ⟨none, none, none, none, some x, none⟩, none)
  | some (.clientVersionNotSupportedError e) =>
    match e with
    | none => (none, some (.other (wrapNilMsg "ClientVersionNotSupportedError")))
    | some x => (some ⟨none, none, none, none, none, some x⟩, none)
  | some (.other msg) => (none, some (.other msg))

/-- Models Helper.UnwrapResponse: inspect the exception slots in
declaration order, then the Success slot, returning the first populated
slot; with no populated slot, return the non void result error. -/
def WorkflowService_ListClosedWorkflowExecutions_Helper.unwrapResponse
    (result : WorkflowService_ListClosedWorkflowExecutions_Result T) :
    Option T.ListClosedWorkflowExecutionsResponse × Option (GoError T) :=
  match result.badRequestError with
  | some e => (none, some (.badRequestError (some e)))
  | none =>
    match result.internalServiceError with
    | some e => (none, some (.internalServiceError (some e)))
    | none =>
      match result.entityNotExistError with
      | some e => (none, some (.entityNotExistsError (some e)))
      | none =>
        match result.serviceBusyError with
        | some e => (none, some (.serviceBusyError (some e)))
        | none =>
          match result.clientVersionNotSupportedError with
          | some e => (none, some (.clientVersionNotSupportedError (some e)))
          | none =>
            match result.success with
            | some s => (some s, none)
            | none => (none, some (.other "expected a non-void result"))

/-- Specification side description of the result inspection order: the
populated slots of a Result, listed in the fixed declared priority order,
all exception slots first in declaration order and the Success slot last.
Exception payloads are listed as the error value UnwrapResponse would
return for them. -/
def populatedSlotsInPriorityOrder
    (result : WorkflowService_ListClosedWorkflowExecutions_Result T) :
    List (Sum (GoError T) T.ListClosedWorkflowExecutionsResponse) :=
  (result.badRequestError.toList.map fun x => Sum.inl (GoError.badRequestError (some x)))
    ++ (result.internalServiceError.toList.map fun x =>
          Sum.inl (GoError.internalServiceError (some x)))
    ++ (result.entityNotExistError.toList.map fun x =>
          Sum.inl (GoError.entityNotExistsError (some x)))
    ++ (result.serviceBusyError.toList.map fun x =>
          Sum.inl (GoError.serviceBusyError (some x)))
    ++ (result.clientVersionNotSupportedError.toList.map fun x =>
          Sum.inl (GoError.clientVersionNotSupportedError (some x)))
    ++ (result.success.toList.map Sum.inr)

/-- Specification side description of UnwrapResponse: return the first
populated slot in priority order as the error or the success payload, and
the non void result error when no slot is populated. -/
def unwrapResponseSpec
    (result : WorkflowService_ListClosedWorkflowExecutions_Result T) :
    Option T.ListClosedWorkflowExecutionsResponse × Option (GoError T) :=
  match populatedSlotsInPriorityOrder result with
  | [] => (none, some (.other "expected a non-void result"))
  | Sum.inl e :: _ => (none, some e)
  | Sum.inr s :: _ => (some s, none)

/-- Decides whether the Args field loop recognises a wire field and reads
it: the declared id 1 with the declared struct wire type. -/
def argsRecognized : Nat × WireValue → Bool
  | (fid, fw) => decide (fid = 1) && decide (fw.wtype = WType.TStruct)

/-- Decides whether the Result field loop recognises a wire field and
reads it: one of the declared ids 0 through 5 with the declared struct
wire type. -/
def resultRecognized : Nat × WireValue → Bool
  | (fid, fw) => decide (fid ≤ 5) && decide (fw.wtype = WType.TStruct)

/-- States whether a GoError carries a typed nil pointer, the defensive
case WrapResponse rejects. -/
def GoError.hasNilValue : GoError T → Bool
  | .badRequestError none => true
  | .internalServiceError none => true
  | .entityNotExistsError none => true
  | .serviceBusyError none => true
  | .clientVersionNotSupportedError none => true
  | _ => false

/-- Round trip contract of a nested payload codec, as the spec states it
for the generic struct codec: a successful encode yields a struct typed
wire value whose decode succeeds and yields a value deeply equal to the
original. -/
def Codec.RoundTrips (c : Codec T α) : Prop :=
  ∀ x w, c.toWire x = .ok w →
    w.wtype = WType.TStruct ∧ ∃ y, c.fromWire w = .ok y ∧ c.equals x y = true

/-- Concrete instantiation of the payload types used by witnesses: every
nested payload is an integer. -/
abbrev intTypes : MethodTypes :=
  ⟨Int, Int, Int, Int, Int, Int, Int⟩

/-- Concrete nested payload codec used by witnesses: an integer payload is
encoded as a one field struct holding it. -/
def intCodec : Codec intTypes Int where
  toWire := fun n => .ok (.vstruct [(1, .vi64 n)])
  fromWire := fun w =>
    match w with
    | .vstruct ((1, .vi64 n) :: _) => .ok n
    | _ => .error (.other "could not decode payload")
  equals := fun a b => a == b

/-- Concrete codec bundle used by witnesses. -/
def intCodecs : Codecs intTypes :=
  ⟨intCodec, intCodec, intCodec, intCodec, intCodec, intCodec, intCodec⟩

/-- The concrete witness codec satisfies the round trip contract. -/
lemma intCodec_roundTrips : intCodec.RoundTrips := by
  intro x w h
  cases h
  exact ⟨rfl, x, rfl, by simp [intCodec]⟩

/-- A populated slot count of one singles out exactly one slot. -/
lemma populatedCount_eq_one_iff
    (v : WorkflowService_ListClosedWorkflowExecutions_Result T) :
    v.populatedCount = 1 ↔
      (∃ x, v = ⟨some x, none, none, none, none, none⟩)
      ∨ (∃ x, v = ⟨none, some x, none, none, none, none⟩)
      ∨ (∃ x, v = ⟨none, none, some x, none, none, none⟩)
      ∨ (∃ x, v = ⟨none, none, none, some x, none, none⟩)
      ∨ (∃ x, v = ⟨none, none, none, none, some x, none⟩)
      ∨ (∃ x, v = ⟨none, none, none, none, none, some x⟩) := by
  obtain ⟨s, b, i, e, sb, c⟩ := v
  cases s <;> cases b <;> cases i <;> cases e <;> cases sb <;> cases c <;>
    simp [WorkflowService_ListClosedWorkflowExecutions_Result.populatedCount, countSome]

/-- Claim C4: UnwrapResponse inspects the result slots in the fixed
priority order BadRequestError, InternalServiceError, EntityNotExistError,
ServiceBusyError, ClientVersionNotSupportedError and then Success last,
returning the first populated slot as the error or the success payload,
and returns the expected non void result error when no slot is
populated. -/
theorem unwrapResponse_priority_order (T : MethodTypes)
    (result : WorkflowService_ListClosedWorkflowExecutions_Result T) :
    WorkflowService_ListClosedWorkflowExecutions_Helper.unwrapResponse result
      = unwrapResponseSpec result := by
  obtain ⟨s, b, i, e, sb, c⟩ := result
  cases b <;> cases i <;> cases e <;> cases sb <;> cases c <;> cases s <;> rfl

/-- Claim C5: for each declared exception kind and every populated value
of it, WrapResponse with any success value yields a nil error and a Result
with exactly the slot of that kind populated, every other slot absent, and
UnwrapResponse of that Result yields a nil success and exactly the same
error value. -/
theorem wrap_unwrap_exception (T : MethodTypes)
    (s : Option T.ListClosedWorkflowExecutionsResponse) :
    (∀ x : T.BadRequestError,
        WorkflowService_ListClosedWorkflowExecutions_Helper.wrapResponse s
            (some (.badRequestError (some x)))
          = (some ⟨none, some x, none, none, none, none⟩, none)
        ∧ WorkflowService_ListClosedWorkflowExecutions_Helper.unwrapResponse
            (⟨none, some x, none, none, none, none⟩ :
              WorkflowService_ListClosedWorkflowExecutions_Result T)
          = (none, some (.badRequestError (some x))))
    ∧ (∀ x : T.InternalServiceError,
        WorkflowService_ListClosedWorkflowExecutions_Helper.wrapResponse s
            (some (.internalServiceError (some x)))
          = (some ⟨none, none, some x, none, none, none⟩, none)
        ∧ WorkflowService_ListClosedWorkflowExecutions_Helper.unwrapResponse
            (⟨none, none, some x, none, none, none⟩ :
              WorkflowService_ListClosedWorkflowExecutions_Result T)
          = (none, some (.internalServiceError (some x))))
    ∧ (∀ x : T.EntityNotExistsError,
        WorkflowService_ListClosedWorkflowExecutions_Helper.wrapResponse s
            (some (.entityNotExistsError (some x)))
          = (some ⟨none, none, none, some x, none, none⟩, none)
        ∧ WorkflowService_ListClosedWorkflowExecutions_Helper.unwrapResponse
            (⟨none, none, none, some x, none, none⟩ :
              WorkflowService_ListClosedWorkflowExecutions_Result T)
          = (none, some (.entityNotExistsError (some x))))
    ∧ (∀ x : T.ServiceBusyError,
        WorkflowService_ListClosedWorkflowExecutions_Helper.wrapResponse s
            (some (.serviceBusyError (some x)))
          = (some ⟨none, none, none, none, some x, none⟩, none)
        ∧ WorkflowService_ListClosedWorkflowExecutions_Helper.unwrapResponse
            (⟨none, none, none, none, some x, none⟩ :
              WorkflowService_ListClosedWorkflowExecutions_Result T)
          = (none, some (.serviceBusyError (some x))))
    ∧ (∀ x : T.ClientVersionNotSupportedError,
        WorkflowService_ListClosedWorkflowExecutions_Helper.wrapResponse s
            (some (.clientVersionNotSupportedError (some x)))
          = (some ⟨none, none, none, none, none, some x⟩, none)
        ∧ WorkflowService_ListClosedWorkflowExecutions_Helper.unwrapResponse
            (⟨none, none, none, none, none, some x⟩ :
              WorkflowService_ListClosedWorkflowExecutions_Result T)
          = (none, some (.clientVersionNotSupportedError (some x)))) :=
  ⟨fun _ => ⟨rfl, rfl⟩, fun _ => ⟨rfl, rfl⟩, fun _ => ⟨rfl, rfl⟩,
    fun _ => ⟨rfl, rfl⟩, fun _ => ⟨rfl, rfl⟩⟩

/-- Claim C6: an error whose kind is none of the five declared exception
kinds is passed back unchanged by WrapResponse with no Result, and a
Result is constructed exactly for the errors IsException accepts that do
not carry a typed nil value. -/
theorem wrapResponse_unclassified_passthrough (T : MethodTypes) :
    (∀ (s : Option T.ListClosedWorkflowExecutionsResponse) (msg : String),
        WorkflowService_ListClosedWorkflowExecutions_Helper.wrapResponse s
            (some (.other msg))
          = (none, some (.other msg)))
    ∧ (∀ (s : Option T.ListClosedWorkflowExecutionsResponse) (g : GoError T),
        (WorkflowService_ListClosedWorkflowExecutions_Helper.wrapResponse s (some g)).1
            ≠ none
          ↔ WorkflowService_ListClosedWorkflowExecutions_Helper.isException g = true
              ∧ g.hasNilValue = false) := by
  constructor
  · intro s msg; rfl
  · intro s g
    cases g with
    | badRequestError e =>
      cases e <;> simp [WorkflowService_ListClosedWorkflowExecutions_Helper.wrapResponse,
        WorkflowService_ListClosedWorkflowExecutions_Helper.isException, GoError.hasNilValue]
    | internalServiceError e =>
      cases e <;> simp [WorkflowService_ListClosedWorkflowExecutions_Helper.wrapResponse,
        WorkflowService_ListClosedWorkflowExecutions_Helper.isException, GoError.hasNilValue]
    | entityNotExistsError e =>
      cases e <;> simp [WorkflowService_ListClosedWorkflowExecutions_Helper.wrapResponse,
        WorkflowService_ListClosedWorkflowExecutions_Helper.isException, GoError.hasNilValue]
    | serviceBusyError e =>
      cases e <;> simp [WorkflowService_ListClosedWorkflowExecutions_Helper.wrapResponse,
        WorkflowService_ListClosedWorkflowExecutions_Helper.isException, GoError.hasNilValue]
    | clientVersionNotSupportedError e =>
      cases e <;> simp [WorkflowService_ListClosedWorkflowExecutions_Helper.wrapResponse,
        WorkflowService_ListClosedWorkflowExecutions_Helper.isException, GoError.hasNilValue]
    | other msg =>
      simp [WorkflowService_ListClosedWorkflowExecutions_Helper.wrapResponse,
        WorkflowService_ListClosedWorkflowExecutions_Helper.isException, GoError.hasNilValue]

/-- Claim C9: a typed nil exception value of each declared kind makes
WrapResponse return a nil Result and the defensive error naming the
affected result slot. -/
theorem wrapResponse_typed_nil_defensive (T : MethodTypes)
    (s : Option T.ListClosedWorkflowExecutionsResponse) :
    WorkflowService_ListClosedWorkflowExecutions_Helper.wrapResponse s
        (some (.badRequestError none))
      = (none, some (.other (wrapNilMsg "BadRequestError")))
    ∧ WorkflowService_ListClosedWorkflowExecutions_Helper.wrapResponse s
        (some (.internalServiceError none))
      = (none, some (.other (wrapNilMsg "InternalServiceError")))
    ∧ WorkflowService_ListClosedWorkflowExecutions_Helper.wrapResponse s
        (some (.entityNotExistsError none))
      = (none, some (.other (wrapNilMsg "EntityNotExistError")))
    ∧ WorkflowService_ListClosedWorkflowExecutions_Helper.wrapResponse s
        (some (.serviceBusyError none))
      = (none, some (.other (wrapNilMsg "ServiceBusyError")))
    ∧ WorkflowService_ListClosedWorkflowExecutions_Helper.wrapResponse s
        (some (.clientVersionNotSupportedError none))
      = (none, some (.other (wrapNilMsg "ClientVersionNotSupportedError"))) :=
  ⟨rfl, rfl, rfl, rfl, rfl⟩

/-- Wire encoding of an integer payload under the concrete witness
codec. -/
def intPayloadWire (n : Int) : WireValue :=
  .vstruct [(1, .vi64 n)]

/-- Claim C2: when the field loop of Result.FromWire succeeds, the decode
as a whole succeeds exactly when one slot is populated, and otherwise
fails with the arity error carrying the method name and the observed
count. -/
theorem result_fromWire_arity (T : MethodTypes) (cs : Codecs T) (w : WireValue)
    (v : WorkflowService_ListClosedWorkflowExecutions_Result T)
    (hread : resultReadFields cs w.getStruct ⟨none, none, none, none, none, none⟩ = .ok v) :
    (v.populatedCount = 1 →
        WorkflowService_ListClosedWorkflowExecutions_Result.fromWire cs w = .ok v)
    ∧ (v.populatedCount ≠ 1 →
        WorkflowService_ListClosedWorkflowExecutions_Result.fromWire cs w
          = .error (.other (resultArityMsg v.populatedCount))) := by
  unfold WorkflowService_ListClosedWorkflowExecutions_Result.fromWire
  rw [hread]
  constructor
  · intro h; simp [h]
  · intro h; simp [h]

/-- Witness for claim C2: a wire Result struct populating both the
success field and an exception field fails decode with the arity error at
count two. -/
theorem result_fromWire_arity_witness :
    WorkflowService_ListClosedWorkflowExecutions_Result.fromWire intCodecs
        (.vstruct [(0, intPayloadWire 7), (1, intPayloadWire 3)])
      = .error (.other (resultArityMsg 2)) := by
  have h := result_fromWire_arity intTypes intCodecs
      (.vstruct [(0, intPayloadWire 7), (1, intPayloadWire 3)])
      ⟨some 7, some 3, none, none, none, none⟩ rfl
  exact h.2 (by decide)

/-- Appending an encodable slot succeeds and lengthens the field list by
the populated count of the slot. -/
lemma appendField_ok (c : Codec T α) (fid : Nat) (slot : Option α)
    (fields : List (Nat × WireValue))
    (h : ∀ x, slot = some x → ∃ w, c.toWire x = .ok w) :
    ∃ fs, appendField c fid slot fields = .ok fs
      ∧ fs.length = fields.length + countSome slot := by
  cases slot with
  | none => exact ⟨fields, rfl, by simp [countSome]⟩
  | some x =>
    obtain ⟨w, hw⟩ := h x rfl
    refine ⟨fields ++ [(fid, w)], ?_, by simp [countSome]⟩
    simp [appendField, hw]

/-- Claim C3: when every populated slot of an in memory Result encodes,
Result.ToWire succeeds exactly when one slot is populated and otherwise
fails with the arity error carrying the method name and the observed
count. -/
theorem result_toWire_arity (T : MethodTypes) (cs : Codecs T)
    (v : WorkflowService_ListClosedWorkflowExecutions_Result T)
    (h0 : ∀ x, v.success = some x → ∃ w, cs.success.toWire x = .ok w)
    (h1 : ∀ x, v.badRequestError = some x → ∃ w, cs.badRequestError.toWire x = .ok w)
    (h2 : ∀ x, v.internalServiceError = some x →
        ∃ w, cs.internalServiceError.toWire x = .ok w)
    (h3 : ∀ x, v.entityNotExistError = some x →
        ∃ w, cs.entityNotExistsError.toWire x = .ok w)
    (h4 : ∀ x, v.serviceBusyError = some x → ∃ w, cs.serviceBusyError.toWire x = .ok w)
    (h5 : ∀ x, v.clientVersionNotSupportedError = some x →
        ∃ w, cs.clientVersionNotSupportedError.toWire x = .ok w) :
    (v.populatedCount = 1 →
        ∃ w, WorkflowService_ListClosedWorkflowExecutions_Result.toWire cs v = .ok w)
    ∧ (v.populatedCount ≠ 1 →
        WorkflowService_ListClosedWorkflowExecutions_Result.toWire cs v
          = .error (.other (resultArityMsg v.populatedCount))) := by
  obtain ⟨f0, e0, l0⟩ := appendField_ok cs.success 0 v.success [] h0
  obtain ⟨f1, e1, l1⟩ := appendField_ok cs.badRequestError 1 v.badRequestError f0 h1
  obtain ⟨f2, e2, l2⟩ := appendField_ok cs.internalServiceError 2 v.internalServiceError f1 h2
  obtain ⟨f3, e3, l3⟩ := appendField_ok cs.entityNotExistsError 3 v.entityNotExistError f2 h3
  obtain ⟨f4, e4, l4⟩ := appendField_ok cs.serviceBusyError 4 v.serviceBusyError f3 h4
  obtain ⟨f5, e5, l5⟩ :=
    appendField_ok cs.clientVersionNotSupportedError 5 v.clientVersionNotSupportedError f4 h5
  have hlen : f5.length = v.populatedCount := by
    unfold WorkflowService_ListClosedWorkflowExecutions_Result.populatedCount
    simp only [List.length_nil] at l0
    omega
  simp only [WorkflowService_ListClosedWorkflowExecutions_Result.toWire, e0, e1, e2, e3, e4, e5]
  rw [hlen]
  constructor
  · intro h
    rw [h]
    exact ⟨.vstruct f5, by simp⟩
  · intro h
    simp [h]

/-- Witness for claim C3: an in memory Result with two populated slots
fails encode with the arity error at count two. -/
theorem result_toWire_arity_witness :
    WorkflowService_ListClosedWorkflowExecutions_Result.toWire intCodecs
        ⟨some 7, some 3, none, none, none, none⟩
      = .error (.other (resultArityMsg 2)) := by
  have h := result_toWire_arity intTypes intCodecs ⟨some 7, some 3, none, none, none, none⟩
      (fun _ _ => ⟨_, rfl⟩) (fun _ _ => ⟨_, rfl⟩) (fun _ _ => ⟨_, rfl⟩)
      (fun _ _ => ⟨_, rfl⟩) (fun _ _ => ⟨_, rfl⟩) (fun _ _ => ⟨_, rfl⟩)
  exact h.2 (by decide)

/-- Counterexample to claim C8 as stated: with a nil success value and a
nil error, WrapResponse yields a Result with no populated slot at all, and
encoding that Result fails with the arity error at count zero instead of
succeeding. -/
theorem wrapResponse_nil_success_counterexample :
    @WorkflowService_ListClosedWorkflowExecutions_Helper.wrapResponse intTypes none none
      = (some ⟨none, none, none, none, none, none⟩, none)
    ∧ (⟨none, none, none, none, none, none⟩ :
          WorkflowService_ListClosedWorkflowExecutions_Result intTypes).populatedCount = 0
    ∧ WorkflowService_ListClosedWorkflowExecutions_Result.toWire intCodecs
        ⟨none, none, none, none, none, none⟩
      = .error (.other (resultArityMsg 0)) :=
  ⟨rfl, rfl, rfl⟩

/-- Claim C8 amended: for every populated success value whose nested
encode succeeds, WrapResponse with a nil error returns a nil error and a
Result with exactly the Success slot populated with that value and every
exception slot absent, and encoding that Result succeeds. -/
theorem wrapResponse_success_slot (T : MethodTypes) (cs : Codecs T)
    (s : T.ListClosedWorkflowExecutionsResponse) (w : WireValue)
    (henc : cs.success.toWire s = .ok w) :
    WorkflowService_ListClosedWorkflowExecutions_Helper.wrapResponse (some s)
        (none : Option (GoError T))
      = (some ⟨some s, none, none, none, none, none⟩, none)
    ∧ WorkflowService_ListClosedWorkflowExecutions_Result.toWire cs
        ⟨some s, none, none, none, none, none⟩
      = .ok (.vstruct [(0, w)]) := by
  refine ⟨rfl, ?_⟩
  simp [WorkflowService_ListClosedWorkflowExecutions_Result.toWire, appendField, henc]

/-- Witness for the amended claim C8 at a concrete success value. -/
theorem wrapResponse_success_slot_witness :
    @WorkflowService_ListClosedWorkflowExecutions_Helper.wrapResponse intTypes (some 5) none
      = (some ⟨some 5, none, none, none, none, none⟩, none)
    ∧ WorkflowService_ListClosedWorkflowExecutions_Result.toWire intCodecs
        ⟨some 5, none, none, none, none, none⟩
      = .ok (.vstruct [(0, intPayloadWire 5)]) :=
  wrapResponse_success_slot intTypes intCodecs 5 (intPayloadWire 5) rfl

/-- Inversion of a successful Result decode: the field loop succeeded and
the populated slot count is one. -/
lemma result_fromWire_ok_inv (cs : Codecs T) (w : WireValue)
    (v : WorkflowService_ListClosedWorkflowExecutions_Result T)
    (h : WorkflowService_ListClosedWorkflowExecutions_Result.fromWire cs w = .ok v) :
    resultReadFields cs w.getStruct ⟨none, none, none, none, none, none⟩ = .ok v
      ∧ v.populatedCount = 1 := by
  unfold WorkflowService_ListClosedWorkflowExecutions_Result.fromWire at h
  cases hrd : resultReadFields cs w.getStruct ⟨none, none, none, none, none, none⟩ with
  | error e =>
    rw [hrd] at h
    exact absurd h (by simp)
  | ok v' =>
    rw [hrd] at h
    by_cases hc : v'.populatedCount = 1
    · simp only [hc, ne_eq, not_true_eq_false, if_false, ite_false, Except.ok.injEq] at h
      subst h
      exact ⟨rfl, hc⟩
    · simp [hc] at h

/-- Claim C10: a wire value accepted by Result.FromWire always has exactly
one populated slot, so UnwrapResponse on the decoded Result never returns
the expected non void result error: it yields either a populated success
payload or one of the five declared exception values. -/
theorem fromWire_ok_unwrap (T : MethodTypes) (cs : Codecs T) (w : WireValue)
    (v : WorkflowService_ListClosedWorkflowExecutions_Result T)
    (h : WorkflowService_ListClosedWorkflowExecutions_Result.fromWire cs w = .ok v) :
    v.populatedCount = 1
    ∧ WorkflowService_ListClosedWorkflowExecutions_Helper.unwrapResponse v
        ≠ (none, some (.other "expected a non-void result"))
    ∧ ((∃ s, WorkflowService_ListClosedWorkflowExecutions_Helper.unwrapResponse v
            = (some s, none))
        ∨ (∃ g, WorkflowService_ListClosedWorkflowExecutions_Helper.unwrapResponse v
              = (none, some g)
            ∧ WorkflowService_ListClosedWorkflowExecutions_Helper.isException g = true)) := by
  obtain ⟨-, hc⟩ := result_fromWire_ok_inv cs w v h
  refine ⟨hc, ?_, ?_⟩ <;>
    rcases (populatedCount_eq_one_iff v).1 hc with
      ⟨x, rfl⟩ | ⟨x, rfl⟩ | ⟨x, rfl⟩ | ⟨x, rfl⟩ | ⟨x, rfl⟩ | ⟨x, rfl⟩
  · simp [WorkflowService_ListClosedWorkflowExecutions_Helper.unwrapResponse]
  · simp [WorkflowService_ListClosedWorkflowExecutions_Helper.unwrapResponse]
  · simp [WorkflowService_ListClosedWorkflowExecutions_Helper.unwrapResponse]
  · simp [WorkflowService_ListClosedWorkflowExecutions_Helper.unwrapResponse]
  · simp [WorkflowService_ListClosedWorkflowExecutions_Helper.unwrapResponse]
  · simp [WorkflowService_ListClosedWorkflowExecutions_Helper.unwrapResponse]
  · exact Or.inl ⟨x, rfl⟩
  · exact Or.inr ⟨.badRequestError (some x), rfl, rfl⟩
  · exact Or.inr ⟨.internalServiceError (some x), rfl, rfl⟩
  · exact Or.inr ⟨.entityNotExistsError (some x), rfl, rfl⟩
  · exact Or.inr ⟨.serviceBusyError (some x), rfl, rfl⟩
  · exact Or.inr ⟨.clientVersionNotSupportedError (some x), rfl, rfl⟩

/-- Witness for claim C10: a decoded one field wire Result unwraps to its
success payload. -/
theorem fromWire_ok_unwrap_witness :
    (⟨some 4, none, none, none, none, none⟩ :
        WorkflowService_ListClosedWorkflowExecutions_Result intTypes).populatedCount = 1
    ∧ WorkflowService_ListClosedWorkflowExecutions_Helper.unwrapResponse
        (⟨some 4, none, none, none, none, none⟩ :
          WorkflowService_ListClosedWorkflowExecutions_Result intTypes)
        ≠ (none, some (.other "expected a non-void result"))
    ∧ ((∃ s, WorkflowService_ListClosedWorkflowExecutions_Helper.unwrapResponse
            (⟨some 4, none, none, none, none, none⟩ :
              WorkflowService_ListClosedWorkflowExecutions_Result intTypes)
            = (some s, none))
        ∨ (∃ g, WorkflowService_ListClosedWorkflowExecutions_Helper.unwrapResponse
              (⟨some 4, none, none, none, none, none⟩ :
                WorkflowService_ListClosedWorkflowExecutions_Result intTypes)
              = (none, some g)
            ∧ WorkflowService_ListClosedWorkflowExecutions_Helper.isException g = true)) :=
  fromWire_ok_unwrap intTypes intCodecs (.vstruct [(0, intPayloadWire 4)])
    ⟨some 4, none, none, none, none, none⟩ rfl

/-- A wire field the Args loop does not recognise leaves the decode state
unchanged. -/
lemma argsReadFields_skip (cs : Codecs T) (fid : Nat) (fw : WireValue)
    (rest : List (Nat × WireValue))
    (v : WorkflowService_ListClosedWorkflowExecutions_Args T)
    (h : argsRecognized (fid, fw) = false) :
    argsReadFields cs ((fid, fw) :: rest) v = argsReadFields cs rest v := by
  by_cases h1 : fid = 1
  · by_cases h2 : fw.wtype = WType.TStruct
    · simp [argsRecognized, h1, h2] at h
    · simp [argsReadFields, h1, h2]
  · simp [argsReadFields, h1]

/-- A wire field the Result loop does not recognise leaves the decode
state unchanged. -/
lemma resultReadFields_skip (cs : Codecs T) (fid : Nat) (fw : WireValue)
    (rest : List (Nat × WireValue))
    (v : WorkflowService_ListClosedWorkflowExecutions_Result T)
    (h : resultRecognized (fid, fw) = false) :
    resultReadFields cs ((fid, fw) :: rest) v = resultReadFields cs rest v := by
  by_cases h2 : fw.wtype = WType.TStruct
  · have hfid : ¬ fid ≤ 5 := fun hle => by simp [resultRecognized, hle, h2] at h
    have e0 : fid ≠ 0 := by omega
    have e1 : fid ≠ 1 := by omega
    have e2 : fid ≠ 2 := by omega
    have e3 : fid ≠ 3 := by omega
    have e4 : fid ≠ 4 := by omega
    have e5 : fid ≠ 5 := by omega
    simp [resultReadFields, e0, e1, e2, e3, e4, e5]
  · simp [resultReadFields, h2]

/-- Filtering out the unrecognised wire fields does not change the Args
field loop. -/
lemma argsReadFields_filter (cs : Codecs T) (fields : List (Nat × WireValue)) :
    ∀ v, argsReadFields cs (fields.filter argsRecognized) v = argsReadFields cs fields v := by
  induction fields with
  | nil => intro v; rfl
  | cons f rest ih =>
    intro v
    obtain ⟨fid, fw⟩ := f
    by_cases hrec : argsRecognized (fid, fw) = true
    · rw [List.filter_cons_of_pos hrec]
      have h1 : fid = 1 := by
        have := hrec
        simp [argsRecognized] at this
        exact this.1
      have h2 : fw.wtype = WType.TStruct := by
        have := hrec
        simp [argsRecognized] at this
        exact this.2
      subst h1
      cases hdec : cs.listRequest.fromWire fw with
      | error e => simp [argsReadFields, h2, hdec]
      | ok r => simp [argsReadFields, h2, hdec, ih]
    · rw [List.filter_cons_of_neg hrec,
        argsReadFields_skip cs fid fw rest v (by simpa using hrec)]
      exact ih v

/-- Filtering out the unrecognised wire fields does not change the Result
field loop. -/
lemma resultReadFields_filter (cs : Codecs T) (fields : List (Nat × WireValue)) :
    ∀ v, resultReadFields cs (fields.filter resultRecognized) v
      = resultReadFields cs fields v := by
  induction fields with
  | nil => intro v; rfl
  | cons f rest ih =>
    intro v
    obtain ⟨fid, fw⟩ := f
    by_cases hrec : resultRecognized (fid, fw) = true
    · rw [List.filter_cons_of_pos hrec]
      have hle : fid ≤ 5 := by
        have := hrec
        simp [resultRecognized] at this
        exact this.1
      have h2 : fw.wtype = WType.TStruct := by
        have := hrec
        simp [resultRecognized] at this
        exact this.2
      interval_cases fid
      · cases hdec : cs.success.fromWire fw with
        | error e => simp [resultReadFields, h2, hdec]
        | ok x => simp [resultReadFields, h2, hdec, ih]
      · cases hdec : cs.badRequestError.fromWire fw with
        | error e => simp [resultReadFields, h2, hdec]
        | ok x => simp [resultReadFields, h2, hdec, ih]
      · cases hdec : cs.internalServiceError.fromWire fw with
        | error e => simp [resultReadFields, h2, hdec]
        | ok x => simp [resultReadFields, h2, hdec, ih]
      · cases hdec : cs.entityNotExistsError.fromWire fw with
        | error e => simp [resultReadFields, h2, hdec]
        | ok x => simp [resultReadFields, h2, hdec, ih]
      · cases hdec : cs.serviceBusyError.fromWire fw with
        | error e => simp [resultReadFields, h2, hdec]
        | ok x => simp [resultReadFields, h2, hdec, ih]
      · cases hdec : cs.clientVersionNotSupportedError.fromWire fw with
        | error e => simp [resultReadFields, h2, hdec]
        | ok x => simp [resultReadFields, h2, hdec, ih]
    · rw [List.filter_cons_of_neg hrec,
        resultReadFields_skip cs fid fw rest v (by simpa using hrec)]
      exact ih v

/-- Claim C7: wire fields with undeclared ids and declared ids of a wire
type other than the declared struct type are silently skipped by both
FromWire loops, having no effect on the output, and in particular a wire
struct with one extra unknown field, or a declared field of the wrong
type, alongside one valid declared field decodes successfully. -/
theorem fromWire_lenient_read (T : MethodTypes) (cs : Codecs T) :
    (∀ fields : List (Nat × WireValue),
        WorkflowService_ListClosedWorkflowExecutions_Args.fromWire cs
            (.vstruct (fields.filter argsRecognized))
          = WorkflowService_ListClosedWorkflowExecutions_Args.fromWire cs (.vstruct fields))
    ∧ (∀ fields : List (Nat × WireValue),
        WorkflowService_ListClosedWorkflowExecutions_Result.fromWire cs
            (.vstruct (fields.filter resultRecognized))
          = WorkflowService_ListClosedWorkflowExecutions_Result.fromWire cs
              (.vstruct fields))
    ∧ WorkflowService_ListClosedWorkflowExecutions_Args.fromWire intCodecs
        (.vstruct [(1, intPayloadWire 7), (99, .vbool true)])
      = .ok ⟨some 7⟩
    ∧ WorkflowService_ListClosedWorkflowExecutions_Result.fromWire intCodecs
        (.vstruct [(0, intPayloadWire 7), (99, .vbool true)])
      = .ok ⟨some 7, none, none, none, none, none⟩
    ∧ WorkflowService_ListClosedWorkflowExecutions_Result.fromWire intCodecs
        (.vstruct [(0, intPayloadWire 7), (1, .vbool true)])
      = .ok ⟨some 7, none, none, none, none, none⟩ := by
  refine ⟨fun fields => ?_, fun fields => ?_, rfl, rfl, rfl⟩
  · exact argsReadFields_filter cs fields ⟨none⟩
  · simp only [WorkflowService_ListClosedWorkflowExecutions_Result.fromWire,
      WireValue.getStruct]
    rw [resultReadFields_filter cs fields]

/-- Encoded Args decode back to a deeply equal struct when the request
codec round trips. -/
lemma args_roundtrip_aux (cs : Codecs T) (hq : cs.listRequest.RoundTrips)
    (v : WorkflowService_ListClosedWorkflowExecutions_Args T) (w : WireValue)
    (henc : WorkflowService_ListClosedWorkflowExecutions_Args.toWire cs v = .ok w) :
    ∃ v', WorkflowService_ListClosedWorkflowExecutions_Args.fromWire cs w = .ok v'
      ∧ WorkflowService_ListClosedWorkflowExecutions_Args.equals cs v v' = true := by
  obtain ⟨r⟩ := v
  cases r with
  | none =>
    simp only [WorkflowService_ListClosedWorkflowExecutions_Args.toWire,
      Except.ok.injEq] at henc
    subst henc
    exact ⟨⟨none⟩, rfl, rfl⟩
  | some r =>
    cases htw : cs.listRequest.toWire r with
    | error e =>
      simp only [WorkflowService_ListClosedWorkflowExecutions_Args.toWire, htw] at henc
      exact Except.noConfusion henc
    | ok w0 =>
      simp only [WorkflowService_ListClosedWorkflowExecutions_Args.toWire, htw,
        Except.ok.injEq] at henc
      subst henc
      obtain ⟨htype, y, hdec, heq⟩ := hq r w0 htw
      refine ⟨⟨some y⟩, ?_, ?_⟩
      · unfold WorkflowService_ListClosedWorkflowExecutions_Args.fromWire
        simp [WireValue.getStruct, argsReadFields, htype, hdec]
      · simp [WorkflowService_ListClosedWorkflowExecutions_Args.equals, optEquals, heq]

/-- An encoded valid Result decodes back to a deeply equal struct when the
six slot codecs round trip. -/
lemma result_roundtrip_aux (cs : Codecs T)
    (hr : cs.success.RoundTrips) (hb : cs.badRequestError.RoundTrips)
    (hi : cs.internalServiceError.RoundTrips) (he : cs.entityNotExistsError.RoundTrips)
    (hs : cs.serviceBusyError.RoundTrips)
    (hc : cs.clientVersionNotSupportedError.RoundTrips)
    (v : WorkflowService_ListClosedWorkflowExecutions_Result T) (w : WireValue)
    (hone : v.populatedCount = 1)
    (henc : WorkflowService_ListClosedWorkflowExecutions_Result.toWire cs v = .ok w) :
    ∃ v', WorkflowService_ListClosedWorkflowExecutions_Result.fromWire cs w = .ok v'
      ∧ WorkflowService_ListClosedWorkflowExecutions_Result.equals cs v v' = true := by
  rcases (populatedCount_eq_one_iff v).1 hone with
    ⟨x, rfl⟩ | ⟨x, rfl⟩ | ⟨x, rfl⟩ | ⟨x, rfl⟩ | ⟨x, rfl⟩ | ⟨x, rfl⟩
  · unfold WorkflowService_ListClosedWorkflowExecutions_Result.toWire at henc
    cases htw : cs.success.toWire x with
    | error e =>
      simp only [appendField, htw] at henc
      exact Except.noConfusion henc
    | ok w0 =>
      simp only [appendField, htw, List.nil_append] at henc
      simp only [List.length_singleton, ne_eq, OfNat.ofNat_ne_one, not_false_eq_true,
        not_true_eq_false, if_false, ite_false, ite_true, Except.ok.injEq] at henc
      obtain ⟨htype, y, hdec, heq⟩ := hr x w0 htw
      subst henc
      refine ⟨⟨some y, none, none, none, none, none⟩, ?_, ?_⟩
      · unfold WorkflowService_ListClosedWorkflowExecutions_Result.fromWire
        simp [WireValue.getStruct, resultReadFields, htype, hdec,
          WorkflowService_ListClosedWorkflowExecutions_Result.populatedCount, countSome]
      · simp [WorkflowService_ListClosedWorkflowExecutions_Result.equals, optEquals, heq]
  · unfold WorkflowService_ListClosedWorkflowExecutions_Result.toWire at henc
    cases htw : cs.badRequestError.toWire x with
    | error e =>
      simp only [appendField, htw] at henc
      exact Except.noConfusion henc
    | ok w0 =>
      simp only [appendField, htw, List.nil_append] at henc
      simp only [List.length_singleton, ne_eq, OfNat.ofNat_ne_one, not_false_eq_true,
        not_true_eq_false, if_false, ite_false, ite_true, Except.ok.injEq] at henc
      obtain ⟨htype, y, hdec, heq⟩ := hb x w0 htw
      subst henc
      refine ⟨⟨none, some y, none, none, none, none⟩, ?_, ?_⟩
      · unfold WorkflowService_ListClosedWorkflowExecutions_Result.fromWire
        simp [WireValue.getStruct, resultReadFields, htype, hdec,
          WorkflowService_ListClosedWorkflowExecutions_Result.populatedCount, countSome]
      · simp [WorkflowService_ListClosedWorkflowExecutions_Result.equals, optEquals, heq]
  · unfold WorkflowService_ListClosedWorkflowExecutions_Result.toWire at henc
    cases htw : cs.internalServiceError.toWire x with
    | error e =>
      simp only [appendField, htw] at henc
      exact Except.noConfusion henc
    | ok w0 =>
      simp only [appendField, htw, List.nil_append] at henc
      simp only [List.length_singleton, ne_eq, OfNat.ofNat_ne_one, not_false_eq_true,
        not_true_eq_false, if_false, ite_false, ite_true, Except.ok.injEq] at henc
      obtain ⟨htype, y, hdec, heq⟩ := hi x w0 htw
      subst henc
      refine ⟨⟨none, none, some y, none, none, none⟩, ?_, ?_⟩
      · unfold WorkflowService_ListClosedWorkflowExecutions_Result.fromWire
        simp [WireValue.getStruct, resultReadFields, htype, hdec,
          WorkflowService_ListClosedWorkflowExecutions_Result.populatedCount, countSome]
      · simp [WorkflowService_ListClosedWorkflowExecutions_Result.equals, optEquals, heq]
  · unfold WorkflowService_ListClosedWorkflowExecutions_Result.toWire at henc
    cases htw : cs.entityNotExistsError.toWire x with
    | error e =>
      simp only [appendField, htw] at henc
      exact Except.noConfusion henc
    | ok w0 =>
      simp only [appendField, htw, List.nil_append] at henc
      simp only [List.length_singleton, ne_eq, OfNat.ofNat_ne_one, not_false_eq_true,
        not_true_eq_false, if_false, ite_false, ite_true, Except.ok.injEq] at henc
      obtain ⟨htype, y, hdec, heq⟩ := he x w0 htw
      subst henc
      refine ⟨⟨none, none, none, some y, none, none⟩, ?_, ?_⟩
      · unfold WorkflowService_ListClosedWorkflowExecutions_Result.fromWire
        simp [WireValue.getStruct, resultReadFields, htype, hdec,
          WorkflowService_ListClosedWorkflowExecutions_Result.populatedCount, countSome]
      · simp [WorkflowService_ListClosedWorkflowExecutions_Result.equals, optEquals, heq]
  · unfold WorkflowService_ListClosedWorkflowExecutions_Result.toWire at henc
    cases htw : cs.serviceBusyError.toWire x with
    | error e =>
      simp only [appendField, htw] at henc
      exact Except.noConfusion henc
    | ok w0 =>
      simp only [appendField, htw, List.nil_append] at henc
      simp only [List.length_singleton, ne_eq, OfNat.ofNat_ne_one, not_false_eq_true,
        not_true_eq_false, if_false, ite_false, ite_true, Except.ok.injEq] at henc
      obtain ⟨htype, y, hdec, heq⟩ := hs x w0 htw
      subst henc
      refine ⟨⟨none, none, none, none, some y, none⟩, ?_, ?_⟩
      · unfold WorkflowService_ListClosedWorkflowExecutions_Result.fromWire
        simp [WireValue.getStruct, resultReadFields, htype, hdec,
          WorkflowService_ListClosedWorkflowExecutions_Result.populatedCount, countSome]
      · simp [WorkflowService_ListClosedWorkflowExecutions_Result.equals, optEquals, heq]
  · unfold WorkflowService_ListClosedWorkflowExecutions_Result.toWire at henc
    cases htw : cs.clientVersionNotSupportedError.toWire x with
    | error e =>
      simp only [appendField, htw] at henc
      exact Except.noConfusion henc
    | ok w0 =>
      simp only [appendField, htw, List.nil_append] at henc
      simp only [List.length_singleton, ne_eq, OfNat.ofNat_ne_one, not_false_eq_true,
        not_true_eq_false, if_false, ite_false, ite_true, Except.ok.injEq] at henc
      obtain ⟨htype, y, hdec, heq⟩ := hc x w0 htw
      subst henc
      refine ⟨⟨none, none, none, none, none, some y⟩, ?_, ?_⟩
      · unfold WorkflowService_ListClosedWorkflowExecutions_Result.fromWire
        simp [WireValue.getStruct, resultReadFields, htype, hdec,
          WorkflowService_ListClosedWorkflowExecutions_Result.populatedCount, countSome]
      · simp [WorkflowService_ListClosedWorkflowExecutions_Result.equals, optEquals, heq]

/-- Claim C1: for every Args instance and every valid Result instance,
decoding the wire value produced by a successful encode yields a struct
deeply equal to the original under the generated Equals comparison, given
the round trip contract of the nested payload codecs. -/
theorem encode_decode_roundtrip (T : MethodTypes) (cs : Codecs T)
    (hq : cs.listRequest.RoundTrips) (hr : cs.success.RoundTrips)
    (hb : cs.badRequestError.RoundTrips) (hi : cs.internalServiceError.RoundTrips)
    (he : cs.entityNotExistsError.RoundTrips) (hs : cs.serviceBusyError.RoundTrips)
    (hc : cs.clientVersionNotSupportedError.RoundTrips) :
    (∀ v w, WorkflowService_ListClosedWorkflowExecutions_Args.toWire cs v = .ok w →
        ∃ v', WorkflowService_ListClosedWorkflowExecutions_Args.fromWire cs w = .ok v'
          ∧ WorkflowService_ListClosedWorkflowExecutions_Args.equals cs v v' = true)
    ∧ (∀ v w, WorkflowService_ListClosedWorkflowExecutions_Result.populatedCount v = 1 →
        WorkflowService_ListClosedWorkflowExecutions_Result.toWire cs v = .ok w →
        ∃ v', WorkflowService_ListClosedWorkflowExecutions_Result.fromWire cs w = .ok v'
          ∧ WorkflowService_ListClosedWorkflowExecutions_Result.equals cs v v' = true) :=
  ⟨fun v w henc => args_roundtrip_aux cs hq v w henc,
    fun v w hone henc => result_roundtrip_aux cs hr hb hi he hs hc v w hone henc⟩

/-- Witness for claim C1 at a concrete Args instance and a concrete valid
Result instance under the concrete witness codecs. -/
theorem encode_decode_roundtrip_witness :
    (∃ v', WorkflowService_ListClosedWorkflowExecutions_Args.fromWire intCodecs
          (.vstruct [(1, intPayloadWire 7)])
        = .ok v'
      ∧ WorkflowService_ListClosedWorkflowExecutions_Args.equals intCodecs ⟨some 7⟩ v'
          = true)
    ∧ (∃ v', WorkflowService_ListClosedWorkflowExecutions_Result.fromWire intCodecs
          (.vstruct [(3, intPayloadWire 9)])
        = .ok v'
      ∧ WorkflowService_ListClosedWorkflowExecutions_Result.equals intCodecs
          ⟨none, none, none, some 9, none, none⟩ v' = true) :=
  ⟨(encode_decode_roundtrip intTypes intCodecs intCodec_roundTrips intCodec_roundTrips
      intCodec_roundTrips intCodec_roundTrips intCodec_roundTrips intCodec_roundTrips
      intCodec_roundTrips).1
      ⟨some 7⟩ (.vstruct [(1, intPayloadWire 7)]) rfl,
    (encode_decode_roundtrip intTypes intCodecs intCodec_roundTrips intCodec_roundTrips
      intCodec_roundTrips intCodec_roundTrips intCodec_roundTrips intCodec_roundTrips
      intCodec_roundTrips).2
      ⟨none, none, none, some 9, none, none⟩ (.vstruct [(3, intPayloadWire 9)]) rfl rfl⟩

end Cadence
